import Mathlib

/-!
# The browser client of the social-media automation bot (`frontend/static/js/app.js`)

A shallow embedding of the view controller: the session globals `authToken` and
`currentUser`, the `localStorage` entry, the five page sections, the form handlers and
the four renderers, followed by the properties of the controller.

Conventions of the embedding.

* A handler is a function `State → State`.  Every observable action (a request, an alert,
  a storage write, a DOM write) is appended to `State.log`, in program order.
* An `await` is run to completion where it is written: the reply of the `k`-th request
  of the page is read from a `Server`, indexed by the number of requests sent so far.
  The one continuation that is also kept as a step of its own is the completion of the
  profile request started on page load (`loadUserProfileDone`).
* A `try … catch` is rendered by its two branches; every place where the source can
  throw inside the `try` goes to the `catch` branch.
* Text that is cut, measured or rendered is a `JsString`, a sequence of UTF-16 code units, as
  `substring`, `length`, `charAt` and `slice` see it.
-/

namespace App

/-! ## Values -/

/-- JavaScript values as the handlers store and test them. Objects and arrays are kept as an
identity: the handlers of this file only store them or test them for truthiness. Numbers are
integers; a handler only ever tests a number of an envelope for being zero. -/
inductive Val where
  | undefined
  | null
  | bool (b : Bool)
  | num (n : Int)
  | str (s : String)
  | object (ref : Nat)
  deriving DecidableEq, Repr

/-- The truthiness test of `if (v)` and `v || w`. -/
def Val.truthy : Val → Bool
  | .undefined => false
  | .null => false
  | .bool b => b
  | .num n => n != 0
  | .str s => s != ""
  | .object _ => true

/-- The loose test `v == null`: true of `null` and of `undefined`. -/
def Val.isNullish : Val → Bool
  | .undefined => true
  | .null => true
  | _ => false

/-- The value of `a || b`. -/
def Val.or (a b : Val) : Val :=
  if a.truthy then a else b

/-- A string of the script as its string methods see it: the sequence of its UTF-16 code
units. A code unit is a number below 65536; a lone surrogate is allowed, as it is in the
language. -/
abbrev JsString := List Nat

/-- The UTF-16 code units of one character: itself in the Basic Multilingual Plane, a surrogate
pair above it. -/
def utf16Char (c : Char) : List Nat :=
  if c.toNat < 0x10000 then [c.toNat]
  else [0xD800 + (c.toNat - 0x10000) / 0x400, 0xDC00 + (c.toNat - 0x10000) % 0x400]

/-- The UTF-16 code units of a list of characters. -/
def utf16Chars : List Char → JsString
  | [] => []
  | c :: cs => utf16Char c ++ utf16Chars cs

/-- The string of the script that a text stands for. -/
def utf16 (s : String) : JsString :=
  utf16Chars s.data

/-- Functions of the host runtime that the script calls and that depend on the locale,
the time zone or Unicode tables. -/
structure Host where
  /-- The text of `String(o)` for an object or array. -/
  objectToString : Nat → String
  /-- The text of `new Date(x).toLocaleString()`. -/
  dateToLocaleString : JsString → JsString
  /-- The text of `n.toLocaleString()` for a number. -/
  numToLocaleString : Int → JsString
  /-- The text of `s.toUpperCase()`. -/
  toUpperCase : JsString → JsString
  /-- The text of `new Date(x).toISOString()`, which throws on an invalid date (`none`). -/
  toISOString : Option String → Option String

/-- The string conversion of template literals and of `localStorage.setItem`. -/
def Val.toStr (h : Host) : Val → String
  | .undefined => "undefined"
  | .null => "null"
  | .bool true => "true"
  | .bool false => "false"
  | .num n => toString n
  | .str s => s
  | .object r => h.objectToString r

/-! ## The page -/

/-- Modelled from the spec: the page markup is not part of the script. The spec names five
mutually exclusive regions (login, register, dashboard, analytics, accounts); each is an
element of class `section` whose id is the view name followed by `-section`. -/
inductive View where
  | login
  | register
  | dashboard
  | analytics
  | accounts
  deriving DecidableEq, Repr

/-- The name under which `showSection` is asked for a view. -/
def View.name : View → String
  | .login => "login"
  | .register => "register"
  | .dashboard => "dashboard"
  | .analytics => "analytics"
  | .accounts => "accounts"

/-- The section found by `document.getElementById(sectionName + "-section")`. -/
def sectionOfName (sectionName : String) : Option View :=
  if sectionName = "login" then some .login
  else if sectionName = "register" then some .register
  else if sectionName = "dashboard" then some .dashboard
  else if sectionName = "analytics" then some .analytics
  else if sectionName = "accounts" then some .accounts
  else none

/-! ## Requests, replies and the log -/

/-- The body of a request, before `JSON.stringify`. -/
inductive Body where
  | none
  | login (username password : Option String)
  | register (username email password subscription_plan : Option String)
  | post (content : Option String) (platforms : List String) (scheduled_time : String)
      (media_url : Option String)
  | account (platform account_name credentials : Option String)
  deriving DecidableEq, Repr

/-- One call of `fetch`. `authorization` is the `Authorization` header when there is one. -/
structure Request where
  method : String
  path : String
  authorization : Option String
  body : Body
  deriving DecidableEq, Repr

/-- The observable actions of the script. -/
inductive Effect where
  | fetch (req : Request)
  | alert (message : Val)
  | consoleError (label : String)
  | setItem (key value : String)
  | removeItem (key : String)
  | setText (id : String) (text : JsString)
  | setHtml (id : String) (html : JsString)
  | resetForm (id : String)
  | setDisplay (id value : String)
  deriving DecidableEq, Repr

/-- The parsed body of a response, `{ success, data, error }`. `success` and `error` are whatever
the server sent (`undefined` when absent). `data` is `none` when it is absent (for a payload
with fields or elements, also when it is `null`), so that reading a property of it or calling a
method on it throws. A parsed body that is not an object
at all is the envelope with all three absent, except `null`, which is `Reply.threw`. -/
structure Envelope (D : Type) where
  success : Val
  data : Option D
  error : Val

/-- What one request comes back with: `threw` when `fetch` or `response.json()` rejects (or the
parsed body is `null`), else the HTTP status code and the parsed body. -/
inductive Reply (D : Type) where
  | threw
  | json (status : Nat) (result : Envelope D)

/-- The `data` of a successful login or registration. -/
structure AuthData where
  token : Val
  user : Val
  deriving DecidableEq, Repr

/-- Modelled from the spec: the server-defined post entity; the script reads these four fields. -/
structure Post where
  content : JsString
  scheduled_time : JsString
  platforms : List JsString
  status : JsString
  deriving DecidableEq, Repr

/-- Modelled from the spec: one entry of the platform breakdown. -/
structure PlatformStats where
  posts : Int
  reach : Int
  deriving DecidableEq, Repr

/-- Modelled from the spec: the analytics summary, its counts taken as integers.
`platform_breakdown` is `none` when the field is absent or `null`; otherwise it lists the
entries of the mapping in key order. -/
structure Summary where
  total_reach : Int
  avg_engagement_rate : Int
  total_likes : Int
  total_shares : Int
  total_comments : Int
  platform_breakdown : Option (List (JsString × PlatformStats))
  deriving DecidableEq, Repr

/-- Modelled from the spec: one best-time recommendation. -/
structure BestTime where
  hour : Int
  day : JsString
  reason : JsString
  deriving DecidableEq, Repr

/-- Modelled from the spec: the server-defined account entity. -/
structure Account where
  platform : JsString
  account_name : JsString
  is_active : Bool
  deriving DecidableEq, Repr

/-- The replies of the backend. The argument is the number of requests the page has sent before
the one being answered, so that two requests to one endpoint may be answered differently. -/
structure Server where
  login : Nat → Reply AuthData
  register : Nat → Reply AuthData
  profile : Nat → Reply Val
  posts : Nat → Reply (List Post)
  summary : Nat → Reply Summary
  bestTimes : Nat → Reply (List BestTime)
  accounts : Nat → Reply (List Account)
  createPost : Nat → Reply Unit
  createAccount : Nat → Reply Unit

/-! ## State -/

/-- The state of the page: the two session globals, `localStorage`, the class `active` of the
five sections, the content of the elements written by id, whether the profile request of the
page load is still in flight, the number of requests sent, and the log. -/
structure State where
  authToken : Val
  currentUser : Val
  localStorage : String → Option String
  active : View → Bool
  content : String → JsString
  profilePending : Bool
  sent : Nat
  log : List Effect

namespace State

/-- Appends one action to the log. -/
def emit (st : State) (e : Effect) : State :=
  { st with log := st.log ++ [e] }

/-- The call `fetch(...)`: logged and counted. -/
def fetch (st : State) (req : Request) : State :=
  { st with sent := st.sent + 1, log := st.log ++ [Effect.fetch req] }

/-- The call `alert(v)`. -/
def alert (st : State) (v : Val) : State :=
  st.emit (.alert v)

/-- The call `console.error(label, error)`. -/
def consoleError (st : State) (label : String) : State :=
  st.emit (.consoleError label)

/-- The call `localStorage.setItem(key, value)`. -/
def setItem (st : State) (key value : String) : State :=
  { st with
    localStorage := fun k => if k = key then some value else st.localStorage k
    log := st.log ++ [Effect.setItem key value] }

/-- The call `localStorage.removeItem(key)`. -/
def removeItem (st : State) (key : String) : State :=
  { st with
    localStorage := fun k => if k = key then none else st.localStorage k
    log := st.log ++ [Effect.removeItem key] }

/-- The assignment `document.getElementById(id).textContent = text`. -/
def setText (st : State) (id : String) (text : JsString) : State :=
  { st with
    content := fun i => if i = id then text else st.content i
    log := st.log ++ [Effect.setText id text] }

/-- The assignment `document.getElementById(id).innerHTML = html`. -/
def setHtml (st : State) (id : String) (html : JsString) : State :=
  { st with
    content := fun i => if i = id then html else st.content i
    log := st.log ++ [Effect.setHtml id html] }

/-- The loop `document.querySelectorAll('.section').forEach(s => s.classList.remove('active'))`. -/
def hideAllSections (st : State) : State :=
  { st with active := fun _ => false }

/-- The call `section.classList.add('active')`. -/
def activate (st : State) (v : View) : State :=
  { st with active := fun w => if w = v then true else st.active w }

end State

/-- The header value of the template `Bearer ${authToken}`. -/
def bearer (h : Host) (st : State) : String :=
  "Bearer " ++ st.authToken.toStr h

/-! ## The renderers -/

/-- The method `parts.flatten('')`. -/
def joinAll : List JsString → JsString
  | [] => []
  | x :: xs => x ++ joinAll xs

/-- The expression `s.charAt(0).toUpperCase() + s.slice(1)`: the first code unit, upper-cased
by the host, and the rest. -/
def capitalize (h : Host) (s : JsString) : JsString :=
  h.toUpperCase (s.take 1) ++ s.drop 1

/-- The inner template of `displayUpcomingPosts`, one badge for a platform. -/
def platformBadge (p : JsString) : JsString :=
  utf16 "<span class=\"platform-badge\">" ++ p ++ utf16 "</span>"

/-- The template of `displayUpcomingPosts`, instantiated for one post: `substring(0, 50)` keeps
the first 50 code units, and the ellipsis follows when `length`, the number of code units,
exceeds 50. -/
def postItem (h : Host) (post : Post) : JsString :=
  utf16 "\n        <div class=\"post-item\">\n            <h4>" ++ post.content.take 50
    ++ (if post.content.length > 50 then utf16 "..." else utf16 "")
    ++ utf16 "</h4>\n            <p>Scheduled: " ++ h.dateToLocaleString post.scheduled_time
    ++ utf16 "</p>\n            <div class=\"post-platforms\">\n                "
    ++ joinAll (post.platforms.map platformBadge)
    ++ utf16 "\n            </div>\n        </div>\n    "

/-- The array `posts.slice(0, 5).map(post => ...)` of `displayUpcomingPosts`. -/
def upcomingPostItems (h : Host) (posts : List Post) : List JsString :=
  (posts.take 5).map (postItem h)

/-- The markup that `displayUpcomingPosts` assigns to the container. -/
def upcomingPostsHtml (h : Host) (posts : List Post) : JsString :=
  if posts.length = 0 then utf16 "<p class=\"text-muted\">No upcoming posts scheduled</p>"
  else joinAll (upcomingPostItems h posts)

/-- The function `displayUpcomingPosts(posts)`. -/
def displayUpcomingPosts (h : Host) (posts : List Post) (st : State) : State :=
  st.setHtml "upcoming-posts" (upcomingPostsHtml h posts)

/-- The template of `displayPlatformBreakdown`, instantiated for one entry. -/
def breakdownItem (h : Host) (entry : JsString × PlatformStats) : JsString :=
  utf16 "\n        <div class=\"analytics-item\">\n            <span class=\"label\">"
    ++ capitalize h entry.1
    ++ utf16 ":</span>\n            <span class=\"value\">" ++ utf16 (toString entry.2.posts)
    ++ utf16 " posts, " ++ h.numToLocaleString entry.2.reach
    ++ utf16 " reach</span>\n        </div>\n    "

/-- The markup that `displayPlatformBreakdown` assigns to the container. -/
def platformBreakdownHtml (h : Host) (breakdown : Option (List (JsString × PlatformStats))) :
    JsString :=
  match breakdown with
  | none => utf16 "<p class=\"text-muted\">No data available</p>"
  | some entries =>
    if entries.length = 0 then utf16 "<p class=\"text-muted\">No data available</p>"
    else joinAll (entries.map (breakdownItem h))

/-- The function `displayPlatformBreakdown(breakdown)`. -/
def displayPlatformBreakdown (h : Host) (breakdown : Option (List (JsString × PlatformStats)))
    (st : State) : State :=
  st.setHtml "platform-breakdown" (platformBreakdownHtml h breakdown)

/-- The template of `displayBestTimes`, instantiated for one recommendation. -/
def bestTimeItem (time : BestTime) : JsString :=
  utf16 "\n        <div class=\"time-recommendation\">\n            <strong>"
    ++ utf16 (toString time.hour) ++ utf16 ":00 on " ++ time.day ++ utf16 "</strong> - "
    ++ time.reason ++ utf16 "\n        </div>\n    "

/-- The markup that `displayBestTimes` assigns to the container. -/
def bestTimesHtml (times : List BestTime) : JsString :=
  if times.length = 0 then utf16 "<p class=\"text-muted\">No recommendations available</p>"
  else joinAll (times.map bestTimeItem)

/-- The function `displayBestTimes(times)`. -/
def displayBestTimes (times : List BestTime) (st : State) : State :=
  st.setHtml "best-times" (bestTimesHtml times)

/-- The template of `displayAccounts`, instantiated for one account. -/
def accountItem (h : Host) (account : Account) : JsString :=
  utf16
      "\n        <div class=\"account-item\">\n            <div class=\"account-info\">\n                <h4>"
    ++ capitalize h account.platform
    ++ utf16 "</h4>\n                <p>" ++ account.account_name
    ++ utf16 "</p>\n            </div>\n            <span class=\"account-status "
    ++ (if account.is_active then utf16 "" else utf16 "inactive")
    ++ utf16 "\">\n                "
    ++ (if account.is_active then utf16 "Active" else utf16 "Inactive")
    ++ utf16 "\n            </span>\n        </div>\n    "

/-- The markup that `displayAccounts` assigns to the container. -/
def accountsHtml (h : Host) (accounts : List Account) : JsString :=
  if accounts.length = 0 then utf16 "<p class=\"text-muted\">No accounts connected</p>"
  else joinAll (accounts.map (accountItem h))

/-- The function `displayAccounts(accounts)`. -/
def displayAccounts (h : Host) (accounts : List Account) (st : State) : State :=
  st.setHtml "connected-accounts" (accountsHtml h accounts)

/-! ## The view loaders -/

/-- A `GET` request carrying the bearer token. -/
def authGet (h : Host) (st : State) (path : String) : Request :=
  { method := "GET", path := path, authorization := some (bearer h st), body := .none }

/-- The second half of `loadDashboard`: the request for the 30-day summary and the two
counters written from it. -/
def loadDashboardSummary (h : Host) (srv : Server) (st : State) : State :=
  let st1 := st.fetch (authGet h st "/api/analytics/summary?days=30")
  match srv.summary st.sent with
  | .threw => st1.consoleError "Dashboard load error:"
  | .json _ analyticsResult =>
    if analyticsResult.success.truthy then
      match analyticsResult.data with
      | none => st1.consoleError "Dashboard load error:"
      | some analytics =>
        (st1.setText "total-reach" (h.numToLocaleString analytics.total_reach)).setText
          "engagement-rate" (utf16 (toString analytics.avg_engagement_rate) ++ utf16 "%")
    else st1

/-- The function `loadDashboard()`. -/
def loadDashboard (h : Host) (srv : Server) (st : State) : State :=
  let st1 := st.fetch (authGet h st "/api/posts")
  match srv.posts st.sent with
  | .threw => st1.consoleError "Dashboard load error:"
  | .json _ postsResult =>
    if postsResult.success.truthy then
      match postsResult.data with
      | none => st1.consoleError "Dashboard load error:"
      | some posts =>
        let pendingPosts := posts.filter (fun p => p.status = utf16 "pending")
        let st2 := st1.setText "total-posts" (utf16 (toString posts.length))
        let st3 := st2.setText "pending-posts" (utf16 (toString pendingPosts.length))
        loadDashboardSummary h srv (displayUpcomingPosts h pendingPosts st3)
    else loadDashboardSummary h srv st1

/-- The second half of `loadAnalytics`: the request for the best posting times. -/
def loadAnalyticsTimes (h : Host) (srv : Server) (st : State) : State :=
  let st1 := st.fetch (authGet h st "/api/analytics/best-times")
  match srv.bestTimes st.sent with
  | .threw => st1.consoleError "Analytics load error:"
  | .json _ timesResult =>
    if timesResult.success.truthy then
      match timesResult.data with
      | none => st1.consoleError "Analytics load error:"
      | some times => displayBestTimes times st1
    else st1

/-- The function `loadAnalytics()`. -/
def loadAnalytics (h : Host) (srv : Server) (st : State) : State :=
  let st1 := st.fetch (authGet h st "/api/analytics/summary?days=30")
  match srv.summary st.sent with
  | .threw => st1.consoleError "Analytics load error:"
  | .json _ summaryResult =>
    if summaryResult.success.truthy then
      match summaryResult.data with
      | none => st1.consoleError "Analytics load error:"
      | some analytics =>
        let st2 := st1.setText "analytics-likes" (h.numToLocaleString analytics.total_likes)
        let st3 := st2.setText "analytics-shares" (h.numToLocaleString analytics.total_shares)
        let st4 := st3.setText "analytics-comments" (h.numToLocaleString analytics.total_comments)
        let st5 := st4.setText "analytics-engagement"
          (utf16 (toString analytics.avg_engagement_rate) ++ utf16 "%")
        loadAnalyticsTimes h srv (displayPlatformBreakdown h analytics.platform_breakdown st5)
    else loadAnalyticsTimes h srv st1

/-- The function `loadAccounts()`. -/
def loadAccounts (h : Host) (srv : Server) (st : State) : State :=
  let st1 := st.fetch (authGet h st "/api/accounts")
  match srv.accounts st.sent with
  | .threw => st1.consoleError "Accounts load error:"
  | .json _ result =>
    if result.success.truthy then
      match result.data with
      | none => st1.consoleError "Accounts load error:"
      | some accounts => displayAccounts h accounts st1
    else st1

/-! ## Navigation -/

/-- The function `showSection(sectionName)`. -/
def showSection (h : Host) (srv : Server) (sectionName : String) (st : State) : State :=
  let st1 := st.hideAllSections
  let st2 :=
    match sectionOfName sectionName with
    | some v => st1.activate v
    | none => st1
  if st2.authToken.truthy then
    if sectionName = "dashboard" then loadDashboard h srv st2
    else if sectionName = "analytics" then loadAnalytics h srv st2
    else if sectionName = "accounts" then loadAccounts h srv st2
    else st2
  else st2

/-- The function `showLogin()`. -/
def showLogin (st : State) : State :=
  st.hideAllSections.activate .login

/-- The function `showRegister()`. -/
def showRegister (st : State) : State :=
  st.hideAllSections.activate .register

/-- The function `logout()`. -/
def logout (st : State) : State :=
  showLogin ({ st with authToken := .null, currentUser := .null }.removeItem "authToken")

/-! ## Authentication -/

/-- The fields that `handleLogin` reads from the login form (`null` when a field is missing). -/
structure LoginForm where
  username : Option String
  password : Option String
  deriving DecidableEq, Repr

/-- The fields that `handleRegister` reads from the registration form. -/
structure RegisterForm where
  username : Option String
  email : Option String
  password : Option String
  subscription_plan : Option String
  deriving DecidableEq, Repr

/-- The request sent by `handleLogin`. -/
def loginRequest (form : LoginForm) : Request :=
  { method := "POST", path := "/api/auth/login", authorization := none,
    body := .login form.username form.password }

/-- The request sent by `handleRegister`. -/
def registerRequest (form : RegisterForm) : Request :=
  { method := "POST", path := "/api/auth/register", authorization := none,
    body := .register form.username form.email form.password form.subscription_plan }

/-- The `catch` branch of `handleLogin`. -/
def loginCatch (st : State) : State :=
  (st.consoleError "Login error:").alert (.str "Login failed. Please try again.")

/-- The function `handleLogin(e)`. -/
def handleLogin (h : Host) (srv : Server) (form : LoginForm) (st : State) : State :=
  let st1 := st.fetch (loginRequest form)
  match srv.login st.sent with
  | .threw => loginCatch st1
  | .json _ result =>
    if result.success.truthy then
      match result.data with
      | none => loginCatch st1
      | some data =>
        let st2 := { st1 with authToken := data.token, currentUser := data.user }
        let st3 := st2.setItem "authToken" (data.token.toStr h)
        let st4 := showSection h srv "dashboard" st3
        let st5 := loadDashboard h srv st4
        st5.alert (.str "Login successful!")
    else st1.alert (result.error.or (.str "Login failed"))

/-- The `catch` branch of `handleRegister`. -/
def registerCatch (st : State) : State :=
  (st.consoleError "Registration error:").alert (.str "Registration failed. Please try again.")

/-- The function `handleRegister(e)`. -/
def handleRegister (h : Host) (srv : Server) (form : RegisterForm) (st : State) : State :=
  let st1 := st.fetch (registerRequest form)
  match srv.register st.sent with
  | .threw => registerCatch st1
  | .json _ result =>
    if result.success.truthy then
      match result.data with
      | none => registerCatch st1
      | some data =>
        let st2 := { st1 with authToken := data.token, currentUser := data.user }
        let st3 := st2.setItem "authToken" (data.token.toStr h)
        let st4 := showSection h srv "dashboard" st3
        let st5 := loadDashboard h srv st4
        st5.alert (.str "Registration successful!")
    else st1.alert (result.error.or (.str "Registration failed"))

/-- The synchronous part of `loadUserProfile()`: the request is sent. -/
def loadUserProfileStart (h : Host) (st : State) : State :=
  { st.fetch (authGet h st "/api/user/profile") with profilePending := true }

/-- The rest of `loadUserProfile()`, run when the reply of the profile request arrives. The
assignment `currentUser = result.data` stores `undefined` when `data` is absent. -/
def loadUserProfileDone (h : Host) (srv : Server) (reply : Reply Val) (st : State) : State :=
  let st1 := { st with profilePending := false }
  match reply with
  | .threw => logout (st1.consoleError "Profile load error:")
  | .json _ result =>
    if result.success.truthy then
      let st2 := { st1 with currentUser := result.data.getD .undefined }
      loadDashboard h srv (showSection h srv "dashboard" st2)
    else logout st1

/-- The function `loadUserProfile()`, the reply arriving before anything else happens. -/
def loadUserProfile (h : Host) (srv : Server) (st : State) : State :=
  loadUserProfileDone h srv (srv.profile st.sent) (loadUserProfileStart h st)

/-! ## Scheduling a post and connecting an account -/

/-- The fields that `handleSchedulePost` reads from the post form; `platforms` is
`formData.getAll('platforms')`. -/
structure PostForm where
  content : Option String
  platforms : List String
  scheduled_time : Option String
  media_url : Option String
  deriving DecidableEq, Repr

/-- The expression `formData.get('media_url') || null`. -/
def mediaUrl (form : PostForm) : Option String :=
  match form.media_url with
  | some s => if s = "" then none else some s
  | none => none

/-- The `catch` branch of `handleSchedulePost`. -/
def schedulePostCatch (st : State) : State :=
  (st.consoleError "Schedule post error:").alert (.str "Failed to schedule post. Please try again.")

/-- The function `handleSchedulePost(e)`. When the date of the form is invalid, `toISOString`
throws before the `try`, and the handler ends there. -/
def handleSchedulePost (h : Host) (srv : Server) (form : PostForm) (st : State) : State :=
  if form.platforms.length = 0 then
    st.alert (.str "Please select at least one platform")
  else
    match h.toISOString form.scheduled_time with
    | none => st
    | some scheduled =>
      let st1 := st.fetch
        { method := "POST", path := "/api/posts", authorization := some (bearer h st),
          body := .post form.content form.platforms scheduled (mediaUrl form) }
      match srv.createPost st.sent with
      | .threw => schedulePostCatch st1
      | .json _ result =>
        if result.success.truthy then
          let st2 := st1.alert (.str "Post scheduled successfully!")
          let st3 := st2.emit (.resetForm "post-form")
          showSection h srv "dashboard" st3
        else st1.alert (result.error.or (.str "Failed to schedule post"))

/-- The fields that `handleAddAccount` reads from the account form. -/
structure AccountForm where
  platform : Option String
  account_name : Option String
  credentials : Option String
  deriving DecidableEq, Repr

/-- The function `showAddAccount()`. -/
def showAddAccount (st : State) : State :=
  st.emit (.setDisplay "add-account-form" "block")

/-- The function `hideAddAccount()`. -/
def hideAddAccount (st : State) : State :=
  (st.emit (.setDisplay "add-account-form" "none")).emit (.resetForm "account-form")

/-- The `catch` branch of `handleAddAccount`. -/
def addAccountCatch (st : State) : State :=
  (st.consoleError "Add account error:").alert (.str "Failed to connect account. Please try again.")

/-- The function `handleAddAccount(e)`. -/
def handleAddAccount (h : Host) (srv : Server) (form : AccountForm) (st : State) : State :=
  let st1 := st.fetch
    { method := "POST", path := "/api/accounts", authorization := some (bearer h st),
      body := .account form.platform form.account_name form.credentials }
  match srv.createAccount st.sent with
  | .threw => addAccountCatch st1
  | .json _ result =>
    if result.success.truthy then
      let st2 := st1.alert (.str "Account connected successfully!")
      loadAccounts h srv (hideAddAccount st2)
    else st1.alert (result.error.or (.str "Failed to connect account"))

/-! ## Page load and the steps of a session -/

/-- The state after the top-level statements of the script: `authToken` is read from
`localStorage` (`null` when there is no entry), `currentUser` is `null`. The markup decides
which sections start active and what the elements contain. -/
def scriptStart (storage : String → Option String) (active : View → Bool)
    (content : String → JsString) : State :=
  { authToken := match storage "authToken" with
      | some s => .str s
      | none => .null
    currentUser := .null
    localStorage := storage
    active := active
    content := content
    profilePending := false
    sent := 0
    log := [] }

/-- The `DOMContentLoaded` listener. -/
def onDOMContentLoaded (h : Host) (st : State) : State :=
  if st.authToken.truthy then loadUserProfileStart h st else showLogin st

/-- The state of the page once it is loaded. -/
def pageLoad (h : Host) (storage : String → Option String) (active : View → Bool)
    (content : String → JsString) : State :=
  onDOMContentLoaded h (scriptStart storage active content)

/-- The steps of a session: a login or registration submission with the replies of the backend,
the arrival of the reply to the profile request of the page load, and a logout. -/
inductive Event where
  | login (srv : Server) (form : LoginForm)
  | register (srv : Server) (form : RegisterForm)
  | profileDone (srv : Server) (reply : Reply Val)
  | logout

/-- One step. The reply to the profile request arrives only while that request is in flight. -/
def step (h : Host) (st : State) : Event → State
  | .login srv form => handleLogin h srv form st
  | .register srv form => handleRegister h srv form st
  | .profileDone srv reply =>
    if st.profilePending then loadUserProfileDone h srv reply st else st
  | .logout => logout st

/-- A sequence of steps. -/
def run (h : Host) (st : State) (events : List Event) : State :=
  events.foldl (step h) st

/-- The session invariant of the spec, `user != null` implies `token != null`, with the loose
comparison of the language (`undefined` counts as `null`). -/
def SessionInvariant (st : State) : Prop :=
  st.currentUser.isNullish = false → st.authToken.isNullish = false

instance (st : State) : Decidable (SessionInvariant st) := by
  unfold SessionInvariant
  infer_instance

/-! ## Vocabulary of the properties -/

/-- The number of `localStorage.setItem(key, _)` calls in a log. -/
def writesTo (key : String) (log : List Effect) : Nat :=
  log.countP fun e =>
    match e with
    | .setItem k _ => decide (k = key)
    | _ => false

/-- The part of the page that the loaders and renderers never touch: the session globals,
`localStorage` and its write count, the active sections, the pending profile request. -/
structure Frame (a b : State) : Prop where
  authToken : b.authToken = a.authToken
  currentUser : b.currentUser = a.currentUser
  localStorage : b.localStorage = a.localStorage
  active : b.active = a.active
  profilePending : b.profilePending = a.profilePending
  writes : ∀ key, writesTo key b.log = writesTo key a.log

/-- Exactly the view `v` is active. -/
def OnlyActive (st : State) (v : View) : Prop :=
  ∀ w, st.active w = decide (w = v)

/-- The session after a successful login or registration that returned `tok` and `user`, as seen
from the state `st` before the submission: both are stored, the `authToken` entry holds the
string conversion of the token (the token itself when it is a string) and was written once,
and the dashboard is the one active view. -/
def LoggedInWith (h : Host) (st : State) (tok user : Val) (st' : State) : Prop :=
  st'.authToken = tok ∧ st'.currentUser = user ∧
  st'.localStorage "authToken" = some (tok.toStr h) ∧
  (∀ t, tok = .str t → st'.localStorage "authToken" = some t) ∧
  writesTo "authToken" st'.log = writesTo "authToken" st.log + 1 ∧
  OnlyActive st' .dashboard

/-- The session is as it was: token, user, persisted entry and active views. -/
def SessionUnchanged (st st' : State) : Prop :=
  st'.authToken = st.authToken ∧ st'.currentUser = st.currentUser ∧
  st'.localStorage "authToken" = st.localStorage "authToken" ∧
  st'.active = st.active

/-- The reply to a login or registration does not hand out a missing token: when it is a
success envelope with data, the token is neither `null` nor `undefined`. -/
def Reply.tokenPresent : Reply AuthData → Bool
  | .json _ ⟨success, some data, _⟩ => !success.truthy || !data.token.isNullish
  | _ => true

/-- A sequence of steps from `st` in which every login and registration reply satisfies
`Reply.tokenPresent` and no logout is taken while the profile request of the page load is
still in flight. -/
def admissible (h : Host) : State → List Event → Bool
  | _, [] => true
  | st, e :: es =>
    (match e with
      | .login srv _ => (srv.login st.sent).tokenPresent
      | .register srv _ => (srv.register st.sent).tokenPresent
      | .profileDone _ _ => true
      | .logout => !st.profilePending)
    && admissible h (step h st e) es

/-- The invariant carried along a session: the session invariant, and a token that is present
for as long as the profile request of the page load is in flight. -/
def PendingInvariant (st : State) : Prop :=
  SessionInvariant st ∧ (st.profilePending = true → st.authToken.isNullish = false)

/-- The text `needle` stands in `hay` as it is, character for character. -/
def Occurs (needle hay : JsString) : Prop :=
  needle <:+: hay

instance (needle hay : JsString) : Decidable (Occurs needle hay) := by
  unfold Occurs
  infer_instance

/-! ## Sample data -/

/-- A host that formats numbers in decimal, leaves dates as they are and upper-cases the
letters `a` to `z`. -/
def sampleHost : Host :=
  { objectToString := fun _ => "[object Object]"
    dateToLocaleString := fun s => s
    numToLocaleString := fun n => utf16 (toString n)
    toUpperCase := fun s => s.map fun u => if 97 ≤ u ∧ u ≤ 122 then u - 32 else u
    toISOString := fun s => s }

/-- A pending post. -/
def samplePost : Post :=
  { content := utf16 "Launch day", scheduled_time := utf16 "2024-05-01T09:00:00Z",
    platforms := [utf16 "twitter"], status := utf16 "pending" }

/-- A backend that accepts everything. -/
def okServer : Server :=
  { login := fun _ => .json 200 ⟨.bool true, some ⟨.str "tok-1", .object 1⟩, .undefined⟩
    register := fun _ => .json 201 ⟨.bool true, some ⟨.str "tok-2", .object 2⟩, .undefined⟩
    profile := fun _ => .json 200 ⟨.bool true, some (.object 1), .undefined⟩
    posts := fun _ => .json 200 ⟨.bool true, some (List.replicate 12 samplePost), .undefined⟩
    summary := fun _ => .json 200 ⟨.bool true, some ⟨1200, 4, 30, 20, 10, some []⟩, .undefined⟩
    bestTimes := fun _ => .json 200 ⟨.bool true, some [], .undefined⟩
    accounts := fun _ => .json 200 ⟨.bool true, some [], .undefined⟩
    createPost := fun _ => .json 201 ⟨.bool true, some (), .undefined⟩
    createAccount := fun _ => .json 201 ⟨.bool true, some (), .undefined⟩ }

/-- A backend that refuses everything with `success: false` and a message. -/
def refusingServer : Server :=
  { login := fun _ => .json 401 ⟨.bool false, none, .str "Invalid credentials"⟩
    register := fun _ => .json 400 ⟨.bool false, none, .str "Username taken"⟩
    profile := fun _ => .json 401 ⟨.bool false, none, .str "Token expired"⟩
    posts := fun _ => .json 401 ⟨.bool false, none, .undefined⟩
    summary := fun _ => .json 401 ⟨.bool false, none, .undefined⟩
    bestTimes := fun _ => .json 401 ⟨.bool false, none, .undefined⟩
    accounts := fun _ => .json 401 ⟨.bool false, none, .undefined⟩
    createPost := fun _ => .json 400 ⟨.bool false, none, .undefined⟩
    createAccount := fun _ => .json 400 ⟨.bool false, none, .undefined⟩ }

/-- A page freshly loaded with nothing stored. -/
def freshPage : State :=
  pageLoad sampleHost (fun _ => none) (fun _ => false) (fun _ => [])

/-- A page loaded with a stored token. -/
def returningPage : State :=
  pageLoad sampleHost (fun k => if k = "authToken" then some "tok-0" else none)
    (fun _ => false) (fun _ => [])

/-- A backend whose envelopes carry a `success` field that is truthy without being the boolean
`true`: the number `1` on a reply of status 500 for a login, the string `false` for a
registration. -/
def looseServer : Server :=
  { okServer with
    login := fun _ => .json 500 ⟨.num 1, some ⟨.str "tok-1", .object 1⟩, .undefined⟩
    register := fun _ => .json 200 ⟨.str "false", some ⟨.str "tok-2", .object 2⟩, .undefined⟩ }

/-- A filled-in post form. -/
def samplePostForm : PostForm :=
  { content := some "Launch day", platforms := ["twitter"],
    scheduled_time := some "2024-05-01T09:00", media_url := some "" }

/-- A backend whose login succeeds with a user and a `null` token. -/
def tokenlessServer : Server :=
  { okServer with
    login := fun _ => .json 200 ⟨.bool true, some ⟨.null, .object 1⟩, .undefined⟩ }

/-- A pending post whose content and platform are pieces of markup. -/
def scriptPost : Post :=
  { content := utf16 "<script>", scheduled_time := utf16 "2024-05-01T09:00:00Z",
    platforms := [utf16 "<b>&"], status := utf16 "pending" }

/-- An account whose name is a piece of markup. -/
def scriptAccount : Account :=
  { platform := utf16 "twitter", account_name := utf16 "<script>", is_active := true }

/-- A recommendation whose reason is a piece of markup. -/
def scriptTime : BestTime :=
  { hour := 9, day := utf16 "Monday", reason := utf16 "<script>" }

/-- A pending post whose content is 25 emoji, each a surrogate pair, followed by a piece of
markup: 58 code units, of which `substring(0, 50)` keeps the emoji. -/
def emojiPost : Post :=
  { content := (List.replicate 25 [0xD83D, 0xDE00]).flatten ++ utf16 "<script>",
    scheduled_time := utf16 "2024-05-01T09:00:00Z", platforms := [], status := utf16 "pending" }

/-! ## Frame lemmas -/

theorem Frame.refl (a : State) : Frame a a :=
  ⟨rfl, rfl, rfl, rfl, rfl, fun _ => rfl⟩

theorem Frame.trans {a b c : State} (hab : Frame a b) (hbc : Frame b c) : Frame a c :=
  ⟨hbc.authToken.trans hab.authToken, hbc.currentUser.trans hab.currentUser,
    hbc.localStorage.trans hab.localStorage, hbc.active.trans hab.active,
    hbc.profilePending.trans hab.profilePending,
    fun key => (hbc.writes key).trans (hab.writes key)⟩

theorem writesTo_append (key : String) (l₁ l₂ : List Effect) :
    writesTo key (l₁ ++ l₂) = writesTo key l₁ + writesTo key l₂ := by
  simp [writesTo, List.countP_append]

theorem frame_fetch (st : State) (req : Request) : Frame st (st.fetch req) :=
  ⟨rfl, rfl, rfl, rfl, rfl, fun key => by simp [State.fetch, writesTo_append, writesTo]⟩

theorem frame_alert (st : State) (v : Val) : Frame st (st.alert v) :=
  ⟨rfl, rfl, rfl, rfl, rfl, fun key => by
    simp [State.alert, State.emit, writesTo_append, writesTo]⟩

theorem frame_consoleError (st : State) (label : String) : Frame st (st.consoleError label) :=
  ⟨rfl, rfl, rfl, rfl, rfl, fun key => by
    simp [State.consoleError, State.emit, writesTo_append, writesTo]⟩

theorem frame_setText (st : State) (id : String) (text : JsString) : Frame st (st.setText id text) :=
  ⟨rfl, rfl, rfl, rfl, rfl, fun key => by simp [State.setText, writesTo_append, writesTo]⟩

theorem frame_setHtml (st : State) (id : String) (html : JsString) : Frame st (st.setHtml id html) :=
  ⟨rfl, rfl, rfl, rfl, rfl, fun key => by simp [State.setHtml, writesTo_append, writesTo]⟩

theorem frame_resetForm (st : State) (id : String) : Frame st (st.emit (.resetForm id)) :=
  ⟨rfl, rfl, rfl, rfl, rfl, fun key => by simp [State.emit, writesTo_append, writesTo]⟩

theorem frame_setDisplay (st : State) (id value : String) :
    Frame st (st.emit (.setDisplay id value)) :=
  ⟨rfl, rfl, rfl, rfl, rfl, fun key => by simp [State.emit, writesTo_append, writesTo]⟩

theorem frame_loadDashboardSummary (h : Host) (srv : Server) (st : State) :
    Frame st (loadDashboardSummary h srv st) := by
  unfold loadDashboardSummary
  have hf := frame_fetch st (authGet h st "/api/analytics/summary?days=30")
  cases srv.summary st.sent with
  | threw => exact hf.trans (frame_consoleError _ _)
  | json status result =>
    dsimp only
    split
    · cases result.data with
      | none => exact hf.trans (frame_consoleError _ _)
      | some analytics =>
        exact (hf.trans (frame_setText _ _ _)).trans (frame_setText _ _ _)
    · exact hf

theorem frame_loadDashboard (h : Host) (srv : Server) (st : State) :
    Frame st (loadDashboard h srv st) := by
  unfold loadDashboard
  have hf := frame_fetch st (authGet h st "/api/posts")
  cases srv.posts st.sent with
  | threw => exact hf.trans (frame_consoleError _ _)
  | json status result =>
    dsimp only
    split
    · cases result.data with
      | none => exact hf.trans (frame_consoleError _ _)
      | some posts =>
        exact ((((hf.trans (frame_setText _ _ _)).trans (frame_setText _ _ _)).trans
          (frame_setHtml _ _ _)).trans (frame_loadDashboardSummary h srv _))
    · exact hf.trans (frame_loadDashboardSummary h srv _)

theorem frame_loadAnalyticsTimes (h : Host) (srv : Server) (st : State) :
    Frame st (loadAnalyticsTimes h srv st) := by
  unfold loadAnalyticsTimes
  have hf := frame_fetch st (authGet h st "/api/analytics/best-times")
  cases srv.bestTimes st.sent with
  | threw => exact hf.trans (frame_consoleError _ _)
  | json status result =>
    dsimp only
    split
    · cases result.data with
      | none => exact hf.trans (frame_consoleError _ _)
      | some times => exact hf.trans (frame_setHtml _ _ _)
    · exact hf

theorem frame_loadAnalytics (h : Host) (srv : Server) (st : State) :
    Frame st (loadAnalytics h srv st) := by
  unfold loadAnalytics
  have hf := frame_fetch st (authGet h st "/api/analytics/summary?days=30")
  cases srv.summary st.sent with
  | threw => exact hf.trans (frame_consoleError _ _)
  | json status result =>
    dsimp only
    split
    · cases result.data with
      | none => exact hf.trans (frame_consoleError _ _)
      | some analytics =>
        exact ((((((hf.trans (frame_setText _ _ _)).trans (frame_setText _ _ _)).trans
          (frame_setText _ _ _)).trans (frame_setText _ _ _)).trans
          (frame_setHtml _ _ _)).trans (frame_loadAnalyticsTimes h srv _))
    · exact hf.trans (frame_loadAnalyticsTimes h srv _)

theorem frame_loadAccounts (h : Host) (srv : Server) (st : State) :
    Frame st (loadAccounts h srv st) := by
  unfold loadAccounts
  have hf := frame_fetch st (authGet h st "/api/accounts")
  cases srv.accounts st.sent with
  | threw => exact hf.trans (frame_consoleError _ _)
  | json status result =>
    dsimp only
    split
    · cases result.data with
      | none => exact hf.trans (frame_consoleError _ _)
      | some accounts => exact hf.trans (frame_setHtml _ _ _)
    · exact hf

/-- The state of `showSection` after the class changes and before the loads. -/
theorem frame_showSection (h : Host) (srv : Server) (sectionName : String) (st : State) :
    Frame
      (match sectionOfName sectionName with
        | some v => st.hideAllSections.activate v
        | none => st.hideAllSections)
      (showSection h srv sectionName st) := by
  unfold showSection
  dsimp only
  split <;> split_ifs <;>
    first
    | exact Frame.refl _
    | exact frame_loadDashboard h srv _
    | exact frame_loadAnalytics h srv _
    | exact frame_loadAccounts h srv _

theorem sectionOfName_name (v : View) : sectionOfName v.name = some v := by
  cases v <;> decide

theorem onlyActive_activate (st : State) (v : View) :
    OnlyActive (st.hideAllSections.activate v) v := by
  intro w
  by_cases hw : w = v <;> simp [State.activate, State.hideAllSections, hw]

theorem frame_showSection_view (h : Host) (srv : Server) (v : View) (st : State) :
    Frame (st.hideAllSections.activate v) (showSection h srv v.name st) := by
  have hf := frame_showSection h srv v.name st
  rw [sectionOfName_name] at hf
  exact hf

theorem onlyActive_of_frame {a b : State} {v : View} (hf : Frame a b) (ha : OnlyActive a v) :
    OnlyActive b v := by
  intro w
  rw [hf.active]
  exact ha w

theorem writesTo_setItem (st : State) (key value : String) :
    writesTo key (st.setItem key value).log = writesTo key st.log + 1 := by
  simp [State.setItem, writesTo_append, writesTo]

/-- What the success branch shared by `handleLogin` and `handleRegister` leaves behind. -/
theorem loggedIn_of_success (h : Host) (srv : Server) (st : State) (req : Request)
    (tok user : Val) (msg : Val) :
    LoggedInWith h st tok user
      ((loadDashboard h srv (showSection h srv "dashboard"
        (({ st.fetch req with authToken := tok, currentUser := user }).setItem "authToken"
          (tok.toStr h)))).alert msg) := by
  have hf := ((frame_showSection_view h srv .dashboard
    (({ st.fetch req with authToken := tok, currentUser := user }).setItem "authToken"
      (tok.toStr h))).trans (frame_loadDashboard h srv _)).trans (frame_alert _ msg)
  have hstore : ((loadDashboard h srv (showSection h srv "dashboard"
        (({ st.fetch req with authToken := tok, currentUser := user }).setItem "authToken"
          (tok.toStr h)))).alert msg).localStorage "authToken" = some (tok.toStr h) := by
    have := congrFun hf.localStorage "authToken"
    simpa [State.activate, State.hideAllSections, State.setItem] using this
  refine ⟨hf.authToken, hf.currentUser, hstore, ?_, ?_, ?_⟩
  · intro t ht
    rw [hstore, ht]
    rfl
  · have hw := hf.writes "authToken"
    have hfetch := (frame_fetch st req).writes "authToken"
    have : writesTo "authToken"
        ((({ st.fetch req with authToken := tok, currentUser := user }).setItem "authToken"
          (tok.toStr h)).hideAllSections.activate View.dashboard).log
        = writesTo "authToken" (st.fetch req).log + 1 :=
      writesTo_setItem ({ st.fetch req with authToken := tok, currentUser := user }) _ _
    exact hw.trans (this.trans (congrArg (· + 1) hfetch))
  · exact onlyActive_of_frame hf (onlyActive_activate _ _)

theorem sessionUnchanged_of_frame {a b : State} (hf : Frame a b) : SessionUnchanged a b :=
  ⟨hf.authToken, hf.currentUser, congrFun hf.localStorage "authToken", hf.active⟩

theorem frame_loginCatch (st : State) : Frame st (loginCatch st) :=
  (frame_consoleError st _).trans (frame_alert _ _)

theorem frame_registerCatch (st : State) : Frame st (registerCatch st) :=
  (frame_consoleError st _).trans (frame_alert _ _)

theorem loadDashboardSummary_upcoming (h : Host) (srv : Server) (st : State) :
    (loadDashboardSummary h srv st).content "upcoming-posts" = st.content "upcoming-posts" := by
  unfold loadDashboardSummary
  cases srv.summary st.sent with
  | threw => rfl
  | json status result =>
    dsimp only
    split
    · cases result.data with
      | none => rfl
      | some analytics => simp [State.setText, State.fetch]
    · rfl

theorem not_nullish_of_truthy {v : Val} (hv : v.truthy = true) : v.isNullish = false := by
  cases v <;> simp_all [Val.truthy, Val.isNullish]

theorem pendingInvariant_of_frame {a b : State} (hf : Frame a b) (ha : PendingInvariant a) :
    PendingInvariant b := by
  unfold PendingInvariant SessionInvariant at *
  rw [hf.authToken, hf.currentUser, hf.profilePending]
  exact ha

theorem pendingInvariant_pageLoad (h : Host) (storage : String → Option String)
    (active : View → Bool) (content : String → JsString) :
    PendingInvariant (pageLoad h storage active content) := by
  unfold pageLoad onDOMContentLoaded
  split
  · rename_i ht
    exact ⟨fun _ => not_nullish_of_truthy ht, fun _ => not_nullish_of_truthy ht⟩
  · constructor
    · intro hu
      simp [showLogin, State.activate, State.hideAllSections, scriptStart, Val.isNullish] at hu
    · intro hp
      simp [showLogin, State.activate, State.hideAllSections, scriptStart] at hp

theorem pendingInvariant_logout (st : State) (hp : st.profilePending = false) :
    PendingInvariant (logout st) := by
  constructor
  · intro hu
    simp [logout, showLogin, State.activate, State.hideAllSections, State.removeItem,
      Val.isNullish] at hu
  · intro hq
    simp [logout, showLogin, State.activate, State.hideAllSections, State.removeItem, hp] at hq

theorem pendingInvariant_handleLogin (h : Host) (srv : Server) (form : LoginForm) (st : State)
    (ht : (srv.login st.sent).tokenPresent = true) (hi : PendingInvariant st) :
    PendingInvariant (handleLogin h srv form st) := by
  unfold handleLogin
  cases hr : srv.login st.sent with
  | threw => exact pendingInvariant_of_frame ((frame_fetch st _).trans (frame_loginCatch _)) hi
  | json status result =>
    obtain ⟨success, data, error⟩ := result
    dsimp only
    split
    · rename_i hs
      cases data with
      | none => exact pendingInvariant_of_frame ((frame_fetch st _).trans (frame_loginCatch _)) hi
      | some d =>
        have hl := loggedIn_of_success h srv st (loginRequest form) d.token d.user
          (.str "Login successful!")
        have htok : d.token.isNullish = false := by
          rw [hr] at ht
          simpa [Reply.tokenPresent, hs] using ht
        exact ⟨fun _ => (congrArg Val.isNullish hl.1).trans htok,
          fun _ => (congrArg Val.isNullish hl.1).trans htok⟩
    · exact pendingInvariant_of_frame ((frame_fetch st _).trans (frame_alert _ _)) hi

theorem pendingInvariant_handleRegister (h : Host) (srv : Server) (form : RegisterForm)
    (st : State) (ht : (srv.register st.sent).tokenPresent = true) (hi : PendingInvariant st) :
    PendingInvariant (handleRegister h srv form st) := by
  unfold handleRegister
  cases hr : srv.register st.sent with
  | threw => exact pendingInvariant_of_frame ((frame_fetch st _).trans (frame_registerCatch _)) hi
  | json status result =>
    obtain ⟨success, data, error⟩ := result
    dsimp only
    split
    · rename_i hs
      cases data with
      | none =>
        exact pendingInvariant_of_frame ((frame_fetch st _).trans (frame_registerCatch _)) hi
      | some d =>
        have hl := loggedIn_of_success h srv st (registerRequest form) d.token d.user
          (.str "Registration successful!")
        have htok : d.token.isNullish = false := by
          rw [hr] at ht
          simpa [Reply.tokenPresent, hs] using ht
        exact ⟨fun _ => (congrArg Val.isNullish hl.1).trans htok,
          fun _ => (congrArg Val.isNullish hl.1).trans htok⟩
    · exact pendingInvariant_of_frame ((frame_fetch st _).trans (frame_alert _ _)) hi

theorem pendingInvariant_loadUserProfileDone (h : Host) (srv : Server) (reply : Reply Val)
    (st : State) (hp : st.profilePending = true) (hi : PendingInvariant st) :
    PendingInvariant (loadUserProfileDone h srv reply st) := by
  unfold loadUserProfileDone
  cases reply with
  | threw =>
    exact pendingInvariant_logout _ rfl
  | json status result =>
    dsimp only
    split
    · have hf := (frame_showSection_view h srv .dashboard
        { st with profilePending := false, currentUser := result.data.getD .undefined }).trans
        (frame_loadDashboard h srv _)
      have htok : st.authToken.isNullish = false := hi.2 hp
      constructor
      · intro _
        exact (congrArg Val.isNullish hf.authToken).trans htok
      · intro hq
        have h2 : false = true := hf.profilePending.symm.trans hq
        exact absurd h2 (by decide)
    · exact pendingInvariant_logout _ rfl

theorem pendingInvariant_step (h : Host) (st : State) (e : Event) (es : List Event)
    (ha : admissible h st (e :: es) = true) (hi : PendingInvariant st) :
    PendingInvariant (step h st e) ∧ admissible h (step h st e) es = true := by
  simp only [admissible, Bool.and_eq_true] at ha
  refine ⟨?_, ha.2⟩
  cases e with
  | login srv form => exact pendingInvariant_handleLogin h srv form st ha.1 hi
  | register srv form => exact pendingInvariant_handleRegister h srv form st ha.1 hi
  | profileDone srv reply =>
    show PendingInvariant (if st.profilePending then loadUserProfileDone h srv reply st else st)
    split
    · rename_i hp
      exact pendingInvariant_loadUserProfileDone h srv reply st hp hi
    · exact hi
  | logout =>
    have hp : st.profilePending = false := by simpa using ha.1
    exact pendingInvariant_logout st hp

theorem pendingInvariant_run (h : Host) (events : List Event) :
    ∀ st, admissible h st events = true → PendingInvariant st →
      PendingInvariant (run h st events) := by
  induction events with
  | nil => intro st _ hi; exact hi
  | cons e es ih =>
    intro st ha hi
    obtain ⟨hi', ha'⟩ := pendingInvariant_step h st e es ha hi
    exact ih (step h st e) ha' hi'

/-! ## Raw text in the rendered markup -/

theorem occurs_self (s : JsString) : Occurs s s :=
  ⟨[], [], by simp⟩

theorem occurs_append_left {n a : JsString} (b : JsString) (ha : Occurs n a) :
    Occurs n (a ++ b) := by
  obtain ⟨s, t, hst⟩ := ha
  exact ⟨s, t ++ b, by simp [← hst]⟩

theorem occurs_append_right {n b : JsString} (a : JsString) (hb : Occurs n b) :
    Occurs n (a ++ b) := by
  obtain ⟨s, t, hst⟩ := hb
  exact ⟨a ++ s, t, by simp [← hst]⟩

theorem occurs_joinAll {n x : JsString} {l : List JsString} (hx : x ∈ l) (hn : Occurs n x) :
    Occurs n (joinAll l) := by
  induction l with
  | nil => cases hx
  | cons y ys ih =>
    rcases List.mem_cons.mp hx with rfl | hmem
    · exact occurs_append_left _ hn
    · exact occurs_append_right _ (ih hmem)

theorem joinAll_eq_flatten (l : List JsString) : joinAll l = l.flatten := by
  induction l with
  | nil => rfl
  | cons x xs ih => simp [joinAll, ih]

theorem occurs_content_postItem (h : Host) (p : Post) :
    Occurs (p.content.take 50) (postItem h p) := by
  unfold postItem
  exact occurs_append_left _ (occurs_append_left _ (occurs_append_left _ (occurs_append_left _
    (occurs_append_left _ (occurs_append_left _ (occurs_append_right _ (occurs_self _)))))))

theorem occurs_platform_postItem (h : Host) (p : Post) (pl : JsString)
    (hpl : pl ∈ p.platforms) : Occurs pl (postItem h p) := by
  unfold postItem
  refine occurs_append_left _ (occurs_append_right _ ?_)
  refine occurs_joinAll (List.mem_map_of_mem platformBadge hpl) ?_
  unfold platformBadge
  exact occurs_append_left _ (occurs_append_right _ (occurs_self _))

theorem occurs_upcomingPostsHtml (h : Host) (posts : List Post) (p : Post)
    (hp : p ∈ posts.take 5) {n : JsString} (hn : Occurs n (postItem h p)) :
    Occurs n (upcomingPostsHtml h posts) := by
  unfold upcomingPostsHtml upcomingPostItems
  have hne : posts.length ≠ 0 := by
    intro h0
    rw [List.length_eq_zero.mp h0] at hp
    cases hp
  rw [if_neg hne]
  exact occurs_joinAll (List.mem_map_of_mem (postItem h) hp) hn

theorem occurs_accountsHtml (h : Host) (accounts : List Account) (a : Account)
    (ha : a ∈ accounts) {n : JsString} (hn : Occurs n (accountItem h a)) :
    Occurs n (accountsHtml h accounts) := by
  unfold accountsHtml
  have hne : accounts.length ≠ 0 := by
    intro h0
    rw [List.length_eq_zero.mp h0] at ha
    cases ha
  rw [if_neg hne]
  exact occurs_joinAll (List.mem_map_of_mem (accountItem h) ha) hn

theorem occurs_name_accountItem (h : Host) (a : Account) :
    Occurs a.account_name (accountItem h a) := by
  unfold accountItem
  exact occurs_append_left _ (occurs_append_left _ (occurs_append_left _ (occurs_append_left _
    (occurs_append_left _ (occurs_append_right _ (occurs_self _))))))

theorem occurs_platform_accountItem (h : Host) (a : Account) :
    Occurs (a.platform.drop 1) (accountItem h a) := by
  unfold accountItem capitalize
  exact occurs_append_left _ (occurs_append_left _ (occurs_append_left _ (occurs_append_left _
    (occurs_append_left _ (occurs_append_left _ (occurs_append_left _ (occurs_append_right _
    (occurs_append_right _ (occurs_self _)))))))))

theorem occurs_bestTimesHtml (times : List BestTime) (t : BestTime)
    (ht : t ∈ times) {n : JsString} (hn : Occurs n (bestTimeItem t)) :
    Occurs n (bestTimesHtml times) := by
  unfold bestTimesHtml
  have hne : times.length ≠ 0 := by
    intro h0
    rw [List.length_eq_zero.mp h0] at ht
    cases ht
  rw [if_neg hne]
  exact occurs_joinAll (List.mem_map_of_mem bestTimeItem ht) hn

theorem occurs_reason_bestTimeItem (t : BestTime) : Occurs t.reason (bestTimeItem t) := by
  unfold bestTimeItem
  exact occurs_append_left _ (occurs_append_right _ (occurs_self _))

theorem occurs_day_bestTimeItem (t : BestTime) : Occurs t.day (bestTimeItem t) := by
  unfold bestTimeItem
  exact occurs_append_left _ (occurs_append_left _ (occurs_append_left _
    (occurs_append_right _ (occurs_self _))))

theorem occurs_platformBreakdownHtml (h : Host) (entries : List (JsString × PlatformStats))
    (e : JsString × PlatformStats) (he : e ∈ entries) {n : JsString}
    (hn : Occurs n (breakdownItem h e)) :
    Occurs n (platformBreakdownHtml h (some entries)) := by
  unfold platformBreakdownHtml
  have hne : entries.length ≠ 0 := by
    intro h0
    rw [List.length_eq_zero.mp h0] at he
    cases he
  dsimp only
  rw [if_neg hne]
  exact occurs_joinAll (List.mem_map_of_mem (breakdownItem h) he) hn

theorem occurs_platform_breakdownItem (h : Host) (e : JsString × PlatformStats) :
    Occurs (e.1.drop 1) (breakdownItem h e) := by
  unfold breakdownItem capitalize
  exact occurs_append_left _ (occurs_append_left _ (occurs_append_left _ (occurs_append_left _
    (occurs_append_left _ (occurs_append_right _ (occurs_append_right _ (occurs_self _)))))))

theorem content_setHtml (st : State) (id : String) (html : JsString) :
    (st.setHtml id html).content id = html := by
  simp [State.setHtml]

/-! ## Properties of the controller -/

/-- C1. For every prior state of the page, a login or a registration whose reply is an envelope
with `success: true` and `data: {token, user}` ends with the token and the user of the reply
in `authToken` and `currentUser`, the `authToken` entry of `localStorage` holding the token
(its string conversion; the token itself when it is a string) and written exactly once by the
handler, and the dashboard as the one active view. -/
theorem auth_success_logs_in (h : Host) (srv : Server) (st : State) (status : Nat)
    (tok user error : Val) :
    (∀ form, srv.login st.sent = .json status ⟨.bool true, some ⟨tok, user⟩, error⟩ →
      LoggedInWith h st tok user (handleLogin h srv form st)) ∧
    (∀ form, srv.register st.sent = .json status ⟨.bool true, some ⟨tok, user⟩, error⟩ →
      LoggedInWith h st tok user (handleRegister h srv form st)) := by
  constructor
  · intro form hr
    unfold handleLogin
    rw [hr]
    exact loggedIn_of_success h srv st (loginRequest form) tok user _
  · intro form hr
    unfold handleRegister
    rw [hr]
    exact loggedIn_of_success h srv st (registerRequest form) tok user _

/-- C1, at a login and a registration on a freshly loaded page against `okServer`. -/
theorem auth_success_logs_in_witness :
    LoggedInWith sampleHost freshPage (.str "tok-1") (.object 1)
      (handleLogin sampleHost okServer ⟨some "ann", some "pw"⟩ freshPage) ∧
    (handleLogin sampleHost okServer ⟨some "ann", some "pw"⟩ freshPage).localStorage "authToken"
      = some "tok-1" :=
  have hl := (auth_success_logs_in sampleHost okServer freshPage 200 (.str "tok-1") (.object 1)
    .undefined).1 ⟨some "ann", some "pw"⟩ rfl
  ⟨hl, hl.2.2.2.1 "tok-1" rfl⟩

/-- C2. For every prior state of the page, a login or a registration whose request or JSON parse
throws, or whose reply is an envelope with `success: false`, leaves `authToken`, `currentUser`,
the persisted `authToken` entry and the active views as they were. -/
theorem auth_failure_keeps_session (h : Host) (srv : Server) (st : State) :
    (∀ form, (srv.login st.sent = .threw ∨
        ∃ status data error, srv.login st.sent = .json status ⟨.bool false, data, error⟩) →
      SessionUnchanged st (handleLogin h srv form st)) ∧
    (∀ form, (srv.register st.sent = .threw ∨
        ∃ status data error, srv.register st.sent = .json status ⟨.bool false, data, error⟩) →
      SessionUnchanged st (handleRegister h srv form st)) := by
  constructor
  · intro form hr
    apply sessionUnchanged_of_frame
    unfold handleLogin
    rcases hr with hr | ⟨status, data, error, hr⟩
    · rw [hr]
      exact (frame_fetch st _).trans (frame_loginCatch _)
    · rw [hr]
      exact (frame_fetch st _).trans (frame_alert _ _)
  · intro form hr
    apply sessionUnchanged_of_frame
    unfold handleRegister
    rcases hr with hr | ⟨status, data, error, hr⟩
    · rw [hr]
      exact (frame_fetch st _).trans (frame_registerCatch _)
    · rw [hr]
      exact (frame_fetch st _).trans (frame_alert _ _)

/-- C2, at a refused login and a refused registration on a page that holds a stored token. -/
theorem auth_failure_keeps_session_witness :
    SessionUnchanged returningPage
      (handleLogin sampleHost refusingServer ⟨some "ann", some "bad"⟩ returningPage) ∧
    SessionUnchanged returningPage
      (handleRegister sampleHost refusingServer ⟨some "ann", none, some "pw", none⟩
        returningPage) :=
  ⟨(auth_failure_keeps_session sampleHost refusingServer returningPage).1 _
      (Or.inr ⟨401, none, .str "Invalid credentials", rfl⟩),
    (auth_failure_keeps_session sampleHost refusingServer returningPage).2 _
      (Or.inr ⟨400, none, .str "Username taken", rfl⟩)⟩

/-- C3. From every state, `logout()` leaves `authToken` and `currentUser` at `null`, no
`authToken` entry in `localStorage`, the login view active and every other view inactive. -/
theorem logout_clears_session (st : State) :
    (logout st).authToken = .null ∧ (logout st).currentUser = .null ∧
    (logout st).localStorage "authToken" = none ∧
    (logout st).active .login = true ∧
    ∀ v, v ≠ .login → (logout st).active v = false := by
  refine ⟨rfl, rfl, ?_, ?_, ?_⟩
  · simp [logout, showLogin, State.activate, State.hideAllSections, State.removeItem]
  · simp [logout, showLogin, State.activate, State.hideAllSections]
  · intro v hv
    simp [logout, showLogin, State.activate, State.hideAllSections, hv]

/-- C5. From every state of the page and for each of the five view names, `showSection(name)`
leaves the named view active and every other view inactive; `showLogin()` and `showRegister()`
do so for their view. Hence at most one view is active afterwards. -/
theorem one_view_at_a_time (h : Host) (srv : Server) (st : State) :
    (∀ v : View, (showSection h srv v.name st).active v = true ∧
      ∀ w, w ≠ v → (showSection h srv v.name st).active w = false) ∧
    ((showLogin st).active .login = true ∧ ∀ w, w ≠ .login → (showLogin st).active w = false) ∧
    ((showRegister st).active .register = true ∧
      ∀ w, w ≠ .register → (showRegister st).active w = false) ∧
    (∀ (v w₁ w₂ : View), (showSection h srv v.name st).active w₁ = true →
      (showSection h srv v.name st).active w₂ = true → w₁ = w₂) := by
  have key : ∀ v : View, OnlyActive (showSection h srv v.name st) v := fun v =>
    onlyActive_of_frame (frame_showSection_view h srv v st) (onlyActive_activate st v)
  refine ⟨fun v => ⟨?_, fun w hw => ?_⟩, ⟨?_, fun w hw => ?_⟩, ⟨?_, fun w hw => ?_⟩, ?_⟩
  · rw [key v v]; simp
  · rw [key v w]; simp [hw]
  · simp [showLogin, State.activate]
  · simp [showLogin, State.activate, State.hideAllSections, hw]
  · simp [showRegister, State.activate]
  · simp [showRegister, State.activate, State.hideAllSections, hw]
  · intro v w₁ w₂ h₁ h₂
    rw [key v w₁] at h₁
    rw [key v w₂] at h₂
    exact (of_decide_eq_true h₁).trans (of_decide_eq_true h₂).symm

/-- C8. For every state and every post form with no platform selected, `handleSchedulePost` sends
no request: all it does is the alert `Please select at least one platform`; the session, the
persisted token and the active views are as before. -/
theorem schedule_without_platform_rejected (h : Host) (srv : Server) (form : PostForm)
    (st : State) (hp : form.platforms = []) :
    (handleSchedulePost h srv form st).log
      = st.log ++ [Effect.alert (.str "Please select at least one platform")] ∧
    (handleSchedulePost h srv form st).sent = st.sent ∧
    (handleSchedulePost h srv form st).authToken = st.authToken ∧
    (handleSchedulePost h srv form st).currentUser = st.currentUser ∧
    (handleSchedulePost h srv form st).localStorage = st.localStorage ∧
    (handleSchedulePost h srv form st).active = st.active := by
  have hs : handleSchedulePost h srv form st
      = st.alert (.str "Please select at least one platform") := by
    simp [handleSchedulePost, hp]
  rw [hs]
  exact ⟨rfl, rfl, rfl, rfl, rfl, rfl⟩

/-- C8, at a form with content and a date but no platform, on a logged-in page. -/
theorem schedule_without_platform_rejected_witness :
    (handleSchedulePost sampleHost okServer ⟨some "hello", [], some "2024-05-01T09:00", none⟩
        returningPage).sent = returningPage.sent :=
  (schedule_without_platform_rejected sampleHost okServer
    ⟨some "hello", [], some "2024-05-01T09:00", none⟩ returningPage rfl).2.1

/-- C4 as stated fails, in two ways. On a page loaded with a stored token, a logout followed by
the arrival of a successful reply to the profile request leaves a user with a `null` token.
On a fresh page, a login whose success envelope carries a user and a `null` token does the
same. -/
theorem session_invariant_broken :
    ¬ SessionInvariant (run sampleHost returningPage
        [.logout, .profileDone okServer (.json 200 ⟨.bool true, some (.object 1), .undefined⟩)]) ∧
    ¬ SessionInvariant (run sampleHost freshPage
        [.login tokenlessServer ⟨some "ann", some "pw"⟩]) := by
  constructor
  · intro hinv
    exact absurd (hinv rfl) (by decide)
  · intro hinv
    exact absurd (hinv rfl) (by decide)

/-- C4, amended. In every state reached from the page-load state by a sequence of login,
register, profile-reply and logout steps, with arbitrary replies, in which every success
envelope of a login or registration carries a token that is neither `null` nor absent and
no logout is taken while the profile request of the page load is still in flight, a user that
is not `null` comes with a token that is not `null`. -/
theorem session_invariant_of_admissible (h : Host) (storage : String → Option String)
    (active : View → Bool) (content : String → JsString) (events : List Event)
    (ha : admissible h (pageLoad h storage active content) events = true) :
    SessionInvariant (run h (pageLoad h storage active content) events) :=
  (pendingInvariant_run h events _ ha (pendingInvariant_pageLoad h storage active content)).1

/-- C4 amended, on a page loaded with a stored token: the profile reply arrives, then a logout,
a login, a refused registration and another logout. -/
theorem session_invariant_of_admissible_witness :
    SessionInvariant (run sampleHost returningPage
      [.profileDone okServer (.json 200 ⟨.bool true, some (.object 1), .undefined⟩), .logout,
        .login okServer ⟨some "ann", some "pw"⟩,
        .register refusingServer ⟨some "bob", none, some "pw", none⟩, .logout]) :=
  session_invariant_of_admissible sampleHost
    (fun k => if k = "authToken" then some "tok-0" else none) (fun _ => false) (fun _ => [])
    _ rfl

/-- C9. For every list of posts that the server returns with `success: true`, `loadDashboard`
fills the upcoming-posts container with one item for each of the first five posts whose status
is `pending`, in the order of the server's list: `min 5 k` items, where `k` is the number of
pending posts (the placeholder when `k = 0`). The content of the container is the items one
after the other; each item is the template of the script around the first 50 code units of
the post's content, the ellipsis when it is longer, the date and one badge for each
platform. -/
theorem dashboard_shows_first_five_pending (h : Host) (srv : Server) (st : State)
    (status : Nat) (posts : List Post) (error : Val)
    (hr : srv.posts st.sent = .json status ⟨.bool true, some posts, error⟩) :
    ∃ shown : List Post,
      shown = (posts.filter fun p => p.status = utf16 "pending").take 5 ∧
      shown.Sublist posts ∧
      shown.length = min 5 (posts.countP fun p => p.status = utf16 "pending") ∧
      (loadDashboard h srv st).content "upcoming-posts" =
        if posts.countP (fun p => p.status = utf16 "pending") = 0 then
          utf16 "<p class=\"text-muted\">No upcoming posts scheduled</p>"
        else
          (shown.map fun post =>
            utf16 "\n        <div class=\"post-item\">\n            <h4>"
              ++ post.content.take 50
              ++ (if post.content.length > 50 then utf16 "..." else [])
              ++ utf16 "</h4>\n            <p>Scheduled: "
              ++ h.dateToLocaleString post.scheduled_time
              ++ utf16 "</p>\n            <div class=\"post-platforms\">\n                "
              ++ (post.platforms.map fun p =>
                  utf16 "<span class=\"platform-badge\">" ++ p ++ utf16 "</span>").flatten
              ++ utf16 "\n            </div>\n        </div>\n    ").flatten := by
  refine ⟨_, rfl, ?_, ?_, ?_⟩
  · exact (List.take_sublist _ _).trans (List.filter_sublist _)
  · rw [List.length_take, List.countP_eq_length_filter]
  · unfold loadDashboard
    rw [hr]
    simp only [Val.truthy, if_true]
    rw [loadDashboardSummary_upcoming, displayUpcomingPosts, content_setHtml]
    unfold upcomingPostsHtml upcomingPostItems
    rw [List.countP_eq_length_filter, joinAll_eq_flatten]
    have hitem : postItem h = fun post =>
        utf16 "\n        <div class=\"post-item\">\n            <h4>"
          ++ post.content.take 50
          ++ (if post.content.length > 50 then utf16 "..." else [])
          ++ utf16 "</h4>\n            <p>Scheduled: "
          ++ h.dateToLocaleString post.scheduled_time
          ++ utf16 "</p>\n            <div class=\"post-platforms\">\n                "
          ++ (post.platforms.map fun p =>
              utf16 "<span class=\"platform-badge\">" ++ p ++ utf16 "</span>").flatten
          ++ utf16 "\n            </div>\n        </div>\n    " := by
      funext post
      unfold postItem
      rw [joinAll_eq_flatten]
      rfl
    rw [hitem]

/-- C9, at twelve pending posts: exactly five items, each the markup of the sample post, 1275
code units in all. -/
theorem dashboard_shows_first_five_pending_witness :
    (loadDashboard sampleHost okServer freshPage).content "upcoming-posts"
      = (List.replicate 5
          (utf16 "\n        <div class=\"post-item\">\n            <h4>" ++ utf16 "Launch day"
            ++ utf16 "</h4>\n            <p>Scheduled: " ++ utf16 "2024-05-01T09:00:00Z"
            ++ utf16 "</p>\n            <div class=\"post-platforms\">\n                "
            ++ (utf16 "<span class=\"platform-badge\">" ++ utf16 "twitter" ++ utf16 "</span>")
            ++ utf16 "\n            </div>\n        </div>\n    ")).flatten ∧
    ((loadDashboard sampleHost okServer freshPage).content "upcoming-posts").length = 1275 ∧
    utf16 "<h4>" = [60, 104, 52, 62] := by
  obtain ⟨shown, hs, -, -, hc⟩ := dashboard_shows_first_five_pending sampleHost okServer
    freshPage 200 (List.replicate 12 samplePost) .undefined rfl
  have hpending : decide (samplePost.status = utf16 "pending") = true := by decide
  have hfilter : (List.replicate 12 samplePost).filter (fun p => p.status = utf16 "pending")
      = List.replicate 12 samplePost := by
    apply List.filter_eq_self.mpr
    intro a ha
    rw [List.eq_of_mem_replicate ha]
    exact hpending
  have hshown : shown = List.replicate 5 samplePost := by
    rw [hs, hfilter, List.take_replicate]
    rfl
  have hcount : (List.replicate 12 samplePost).countP (fun p => p.status = utf16 "pending")
      = 12 := by
    rw [List.countP_eq_length_filter, hfilter, List.length_replicate]
  have htake : (utf16 "Launch day").take 50 = utf16 "Launch day" :=
    List.take_of_length_le (by decide)
  have hshort : ¬ (utf16 "Launch day").length > 50 := by decide
  have hcontent : (loadDashboard sampleHost okServer freshPage).content "upcoming-posts"
      = (List.replicate 5
          (utf16 "\n        <div class=\"post-item\">\n            <h4>" ++ utf16 "Launch day"
            ++ utf16 "</h4>\n            <p>Scheduled: " ++ utf16 "2024-05-01T09:00:00Z"
            ++ utf16 "</p>\n            <div class=\"post-platforms\">\n                "
            ++ (utf16 "<span class=\"platform-badge\">" ++ utf16 "twitter" ++ utf16 "</span>")
            ++ utf16 "\n            </div>\n        </div>\n    ")).flatten := by
    rw [hc, hcount, hshown, List.map_replicate]
    simp only [samplePost, sampleHost, htake, hshort, if_false, List.map_cons, List.map_nil,
      List.flatten_cons, List.flatten_nil, List.append_nil]
    rfl
  have h0 : (utf16 "\n        <div class=\"post-item\">\n            <h4>").length = 49 := by
    decide
  have h1 : (utf16 "Launch day").length = 10 := by decide
  have h2 : (utf16 "</h4>\n            <p>Scheduled: ").length = 32 := by decide
  have h3 : (utf16 "2024-05-01T09:00:00Z").length = 20 := by decide
  have h4 : (utf16 "</p>\n            <div class=\"post-platforms\">\n                ").length
      = 62 := by decide
  have h5 : (utf16 "<span class=\"platform-badge\">").length = 29 := by decide
  have h6 : (utf16 "twitter").length = 7 := by decide
  have h7 : (utf16 "</span>").length = 7 := by decide
  have h8 : (utf16 "\n            </div>\n        </div>\n    ").length = 39 := by decide
  refine ⟨hcontent, ?_, by decide⟩
  rw [hcontent]
  simp only [List.length_flatten, List.map_replicate, List.sum_replicate, List.length_append,
    h0, h1, h2, h3, h4, h5, h6, h7, h8]
  rfl

/-- C10. Each of the four renderers, given an empty collection, makes the designated placeholder
the whole content of its container, and that content is not empty: `No upcoming posts
scheduled`, `No data available` (for an empty and for a missing mapping), `No recommendations
available`, `No accounts connected`, each inside a `text-muted` paragraph. -/
theorem empty_collections_render_placeholders (h : Host) (st : State) :
    ((displayUpcomingPosts h [] st).content "upcoming-posts"
        = utf16 "<p class=\"text-muted\">No upcoming posts scheduled</p>" ∧
      (displayUpcomingPosts h [] st).content "upcoming-posts" ≠ []) ∧
    ((displayPlatformBreakdown h (some []) st).content "platform-breakdown"
        = utf16 "<p class=\"text-muted\">No data available</p>" ∧
      (displayPlatformBreakdown h none st).content "platform-breakdown"
        = utf16 "<p class=\"text-muted\">No data available</p>" ∧
      (displayPlatformBreakdown h (some []) st).content "platform-breakdown" ≠ [] ∧
      (displayPlatformBreakdown h none st).content "platform-breakdown" ≠ []) ∧
    ((displayBestTimes [] st).content "best-times"
        = utf16 "<p class=\"text-muted\">No recommendations available</p>" ∧
      (displayBestTimes [] st).content "best-times" ≠ []) ∧
    ((displayAccounts h [] st).content "connected-accounts"
        = utf16 "<p class=\"text-muted\">No accounts connected</p>" ∧
      (displayAccounts h [] st).content "connected-accounts" ≠ []) ∧
    (Occurs (utf16 "No upcoming posts scheduled")
        ((displayUpcomingPosts h [] st).content "upcoming-posts") ∧
      Occurs (utf16 "No data available")
        ((displayPlatformBreakdown h (some []) st).content "platform-breakdown") ∧
      Occurs (utf16 "No data available")
        ((displayPlatformBreakdown h none st).content "platform-breakdown") ∧
      Occurs (utf16 "No recommendations available")
        ((displayBestTimes [] st).content "best-times") ∧
      Occurs (utf16 "No accounts connected")
        ((displayAccounts h [] st).content "connected-accounts")) ∧
    utf16 "<p class=\"text-muted\">No data available</p>"
      = [60, 112, 32, 99, 108, 97, 115, 115, 61, 34, 116, 101, 120, 116, 45, 109, 117, 116, 101,
        100, 34, 62, 78, 111, 32, 100, 97, 116, 97, 32, 97, 118, 97, 105, 108, 97, 98, 108, 101,
        60, 47, 112, 62] := by
  have h1 : (displayUpcomingPosts h [] st).content "upcoming-posts"
      = utf16 "<p class=\"text-muted\">No upcoming posts scheduled</p>" := by
    simp [displayUpcomingPosts, State.setHtml, upcomingPostsHtml]
  have h2 : (displayPlatformBreakdown h (some []) st).content "platform-breakdown"
      = utf16 "<p class=\"text-muted\">No data available</p>" := by
    simp [displayPlatformBreakdown, State.setHtml, platformBreakdownHtml]
  have h3 : (displayPlatformBreakdown h none st).content "platform-breakdown"
      = utf16 "<p class=\"text-muted\">No data available</p>" := by
    simp [displayPlatformBreakdown, State.setHtml, platformBreakdownHtml]
  have h4 : (displayBestTimes [] st).content "best-times"
      = utf16 "<p class=\"text-muted\">No recommendations available</p>" := by
    simp [displayBestTimes, State.setHtml, bestTimesHtml]
  have h5 : (displayAccounts h [] st).content "connected-accounts"
      = utf16 "<p class=\"text-muted\">No accounts connected</p>" := by
    simp [displayAccounts, State.setHtml, accountsHtml]
  refine ⟨⟨h1, ?_⟩, ⟨h2, h3, ?_, ?_⟩, ⟨h4, ?_⟩, ⟨h5, ?_⟩, ⟨?_, ?_, ?_, ?_, ?_⟩, ?_⟩
  · rw [h1]; decide
  · rw [h2]; decide
  · rw [h3]; decide
  · rw [h4]; decide
  · rw [h5]; decide
  · rw [h1]; exact ⟨utf16 "<p class=\"text-muted\">", utf16 "</p>", by decide⟩
  · rw [h2]; exact ⟨utf16 "<p class=\"text-muted\">", utf16 "</p>", by decide⟩
  · rw [h3]; exact ⟨utf16 "<p class=\"text-muted\">", utf16 "</p>", by decide⟩
  · rw [h4]; exact ⟨utf16 "<p class=\"text-muted\">", utf16 "</p>", by decide⟩
  · rw [h5]; exact ⟨utf16 "<p class=\"text-muted\">", utf16 "</p>", by decide⟩
  · decide

/-- C7 as stated fails: a `success` field that is not the boolean `true` but is truthy (the
number `1`, here with status 500, or the string `false`) sends `handleLogin` and
`handleRegister` down the success path: the token is stored and persisted and the success
alert is shown. -/
theorem truthy_non_boolean_success_logs_in :
    (handleLogin sampleHost looseServer ⟨some "ann", some "pw"⟩ freshPage).authToken
      = .str "tok-1" ∧
    (handleLogin sampleHost looseServer ⟨some "ann", some "pw"⟩ freshPage).localStorage
      "authToken" = some "tok-1" ∧
    Effect.alert (.str "Login successful!")
      ∈ (handleLogin sampleHost looseServer ⟨some "ann", some "pw"⟩ freshPage).log ∧
    (handleRegister sampleHost looseServer ⟨some "ann", none, some "pw", none⟩
      freshPage).authToken = .str "tok-2" := by
  refine ⟨?_, ?_, ?_, ?_⟩
  · exact (loggedIn_of_success sampleHost looseServer freshPage _ (.str "tok-1") (.object 1)
      _).1
  · exact (loggedIn_of_success sampleHost looseServer freshPage _ (.str "tok-1") (.object 1)
      _).2.2.1
  · show Effect.alert (.str "Login successful!") ∈ _ ++ [Effect.alert (.str "Login successful!")]
    simp
  · exact (loggedIn_of_success sampleHost looseServer freshPage _ (.str "tok-2") (.object 2)
      _).1

/-- C7, amended. For every envelope and every HTTP status code, the path a handler takes is
decided by the truthiness of the `success` field, not by its being the boolean `true`.

When it is falsy (absent, `false`, `null`, `0` or the empty string) the handler takes its
failure path: `handleLogin`, `handleRegister`, `handleSchedulePost` and `handleAddAccount` do
nothing but send the request and alert the server's message or the fallback;
`loadUserProfile` logs out; each view loader skips the block guarded by that envelope, so
that nothing is rendered from it.

When it is truthy (`true`, but also `1` or the string `false`) and the data is there, the
handler takes its success path: `handleLogin` and `handleRegister` store the token and the
user, persist the token and show the success alert; `loadUserProfile` stores the user and
shows the dashboard; `handleSchedulePost` and `handleAddAccount` show their success alert,
reset the form and reload; each view loader writes and renders what the envelope carries. -/
theorem success_truthiness_decides_path (h : Host) (srv : Server) (st : State) :
    ((∀ form status env, srv.login st.sent = .json status env → env.success.truthy = false →
      handleLogin h srv form st
        = (st.fetch (loginRequest form)).alert (env.error.or (.str "Login failed"))) ∧
    (∀ form status env, srv.register st.sent = .json status env → env.success.truthy = false →
      handleRegister h srv form st
        = (st.fetch (registerRequest form)).alert
            (env.error.or (.str "Registration failed"))) ∧
    (∀ status env, srv.profile st.sent = .json status env → env.success.truthy = false →
      loadUserProfile h srv st
        = logout { loadUserProfileStart h st with profilePending := false }) ∧
    (∀ form scheduled status env, form.platforms ≠ [] →
      h.toISOString form.scheduled_time = some scheduled →
      srv.createPost st.sent = .json status env → env.success.truthy = false →
      handleSchedulePost h srv form st
        = (st.fetch
            { method := "POST", path := "/api/posts", authorization := some (bearer h st),
              body := .post form.content form.platforms scheduled (mediaUrl form) }).alert
            (env.error.or (.str "Failed to schedule post"))) ∧
    (∀ form status env, srv.createAccount st.sent = .json status env →
      env.success.truthy = false →
      handleAddAccount h srv form st
        = (st.fetch
            { method := "POST", path := "/api/accounts", authorization := some (bearer h st),
              body := .account form.platform form.account_name form.credentials }).alert
            (env.error.or (.str "Failed to connect account"))) ∧
    (∀ status env, srv.posts st.sent = .json status env → env.success.truthy = false →
      loadDashboard h srv st
        = loadDashboardSummary h srv (st.fetch (authGet h st "/api/posts"))) ∧
    (∀ status env, srv.summary st.sent = .json status env → env.success.truthy = false →
      loadDashboardSummary h srv st
        = st.fetch (authGet h st "/api/analytics/summary?days=30")) ∧
    (∀ status env, srv.summary st.sent = .json status env → env.success.truthy = false →
      loadAnalytics h srv st
        = loadAnalyticsTimes h srv (st.fetch (authGet h st "/api/analytics/summary?days=30"))) ∧
    (∀ status env, srv.bestTimes st.sent = .json status env → env.success.truthy = false →
      loadAnalyticsTimes h srv st = st.fetch (authGet h st "/api/analytics/best-times")) ∧
    (∀ status env, srv.accounts st.sent = .json status env → env.success.truthy = false →
      loadAccounts h srv st = st.fetch (authGet h st "/api/accounts"))) ∧
    ((∀ form status env data, srv.login st.sent = .json status env →
      env.success.truthy = true → env.data = some data →
      LoggedInWith h st data.token data.user (handleLogin h srv form st) ∧
      Effect.alert (.str "Login successful!") ∈ (handleLogin h srv form st).log) ∧
    (∀ form status env data, srv.register st.sent = .json status env →
      env.success.truthy = true → env.data = some data →
      LoggedInWith h st data.token data.user (handleRegister h srv form st) ∧
      Effect.alert (.str "Registration successful!") ∈ (handleRegister h srv form st).log) ∧
    (∀ status env, srv.profile st.sent = .json status env → env.success.truthy = true →
      (loadUserProfile h srv st).currentUser = env.data.getD .undefined ∧
      (loadUserProfile h srv st).authToken = st.authToken ∧
      OnlyActive (loadUserProfile h srv st) .dashboard) ∧
    (∀ form scheduled status env, form.platforms ≠ [] →
      h.toISOString form.scheduled_time = some scheduled →
      srv.createPost st.sent = .json status env → env.success.truthy = true →
      handleSchedulePost h srv form st
        = showSection h srv "dashboard"
            (((st.fetch
              { method := "POST", path := "/api/posts", authorization := some (bearer h st),
                body := .post form.content form.platforms scheduled (mediaUrl form) }).alert
              (.str "Post scheduled successfully!")).emit (.resetForm "post-form"))) ∧
    (∀ form status env, srv.createAccount st.sent = .json status env →
      env.success.truthy = true →
      handleAddAccount h srv form st
        = loadAccounts h srv (hideAddAccount ((st.fetch
            { method := "POST", path := "/api/accounts", authorization := some (bearer h st),
              body := .account form.platform form.account_name form.credentials }).alert
            (.str "Account connected successfully!")))) ∧
    (∀ status env posts, srv.posts st.sent = .json status env → env.success.truthy = true →
      env.data = some posts →
      loadDashboard h srv st
        = loadDashboardSummary h srv
            (displayUpcomingPosts h (posts.filter fun p => p.status = utf16 "pending")
              (((st.fetch (authGet h st "/api/posts")).setText "total-posts"
                (utf16 (toString posts.length))).setText "pending-posts"
                (utf16 (toString (posts.filter fun p => p.status = utf16 "pending").length))))) ∧
    (∀ status env analytics, srv.summary st.sent = .json status env →
      env.success.truthy = true → env.data = some analytics →
      loadDashboardSummary h srv st
        = ((st.fetch (authGet h st "/api/analytics/summary?days=30")).setText "total-reach"
            (h.numToLocaleString analytics.total_reach)).setText "engagement-rate"
            (utf16 (toString analytics.avg_engagement_rate) ++ utf16 "%")) ∧
    (∀ status env analytics, srv.summary st.sent = .json status env →
      env.success.truthy = true → env.data = some analytics →
      loadAnalytics h srv st
        = loadAnalyticsTimes h srv
            (displayPlatformBreakdown h analytics.platform_breakdown
              (((((st.fetch (authGet h st "/api/analytics/summary?days=30")).setText
                "analytics-likes" (h.numToLocaleString analytics.total_likes)).setText
                "analytics-shares" (h.numToLocaleString analytics.total_shares)).setText
                "analytics-comments" (h.numToLocaleString analytics.total_comments)).setText
                "analytics-engagement"
                (utf16 (toString analytics.avg_engagement_rate) ++ utf16 "%")))) ∧
    (∀ status env times, srv.bestTimes st.sent = .json status env →
      env.success.truthy = true → env.data = some times →
      loadAnalyticsTimes h srv st
        = displayBestTimes times (st.fetch (authGet h st "/api/analytics/best-times"))) ∧
    (∀ status env accounts, srv.accounts st.sent = .json status env →
      env.success.truthy = true → env.data = some accounts →
      loadAccounts h srv st
        = displayAccounts h accounts (st.fetch (authGet h st "/api/accounts")))) := by
  refine ⟨⟨?_, ?_, ?_, ?_, ?_, ?_, ?_, ?_, ?_, ?_⟩, ⟨?_, ?_, ?_, ?_, ?_, ?_, ?_, ?_, ?_, ?_⟩⟩
  · intro form status env hr hs
    simp [handleLogin, hr, hs]
  · intro form status env hr hs
    simp [handleRegister, hr, hs]
  · intro status env hr hs
    simp [loadUserProfile, loadUserProfileDone, hr, hs]
  · intro form scheduled status env hp ht hr hs
    simp [handleSchedulePost, hp, ht, hr, hs]
  · intro form status env hr hs
    simp [handleAddAccount, hr, hs]
  · intro status env hr hs
    simp [loadDashboard, hr, hs]
  · intro status env hr hs
    simp [loadDashboardSummary, hr, hs]
  · intro status env hr hs
    simp [loadAnalytics, hr, hs]
  · intro status env hr hs
    simp [loadAnalyticsTimes, hr, hs]
  · intro status env hr hs
    simp [loadAccounts, hr, hs]
  · intro form status env data hr hs hd
    have he : handleLogin h srv form st
        = (loadDashboard h srv (showSection h srv "dashboard"
            (({ st.fetch (loginRequest form) with
                authToken := data.token, currentUser := data.user }).setItem "authToken"
              (data.token.toStr h)))).alert (.str "Login successful!") := by
      simp [handleLogin, hr, hs, hd]
    rw [he]
    refine ⟨loggedIn_of_success h srv st (loginRequest form) data.token data.user _, ?_⟩
    show Effect.alert (.str "Login successful!") ∈ _ ++ [Effect.alert (.str "Login successful!")]
    simp
  · intro form status env data hr hs hd
    have he : handleRegister h srv form st
        = (loadDashboard h srv (showSection h srv "dashboard"
            (({ st.fetch (registerRequest form) with
                authToken := data.token, currentUser := data.user }).setItem "authToken"
              (data.token.toStr h)))).alert (.str "Registration successful!") := by
      simp [handleRegister, hr, hs, hd]
    rw [he]
    refine ⟨loggedIn_of_success h srv st (registerRequest form) data.token data.user _, ?_⟩
    show Effect.alert (.str "Registration successful!")
      ∈ _ ++ [Effect.alert (.str "Registration successful!")]
    simp
  · intro status env hr hs
    have he : loadUserProfile h srv st
        = loadDashboard h srv (showSection h srv "dashboard"
            { loadUserProfileStart h st with
              profilePending := false, currentUser := env.data.getD .undefined }) := by
      simp [loadUserProfile, loadUserProfileDone, hr, hs]
    have hf := (frame_showSection_view h srv .dashboard
      { loadUserProfileStart h st with
        profilePending := false, currentUser := env.data.getD .undefined }).trans
      (frame_loadDashboard h srv _)
    rw [he]
    exact ⟨hf.currentUser, hf.authToken, onlyActive_of_frame hf (onlyActive_activate _ _)⟩
  · intro form scheduled status env hp ht hr hs
    simp [handleSchedulePost, hp, ht, hr, hs]
  · intro form status env hr hs
    simp [handleAddAccount, hr, hs]
  · intro status env posts hr hs hd
    simp [loadDashboard, hr, hs, hd]
  · intro status env analytics hr hs hd
    simp [loadDashboardSummary, hr, hs, hd]
  · intro status env analytics hr hs hd
    simp [loadAnalytics, hr, hs, hd]
  · intro status env times hr hs hd
    simp [loadAnalyticsTimes, hr, hs, hd]
  · intro status env accounts hr hs hd
    simp [loadAccounts, hr, hs, hd]

/-- C7 amended, on a page with a stored token: a refused login (status 401) and a refused post
take the failure path; a login answered with `success: 1` and status 500 takes the success
path. -/
theorem success_truthiness_decides_path_witness :
    handleLogin sampleHost refusingServer ⟨some "ann", some "bad"⟩ returningPage
      = (returningPage.fetch (loginRequest ⟨some "ann", some "bad"⟩)).alert
          (.str "Invalid credentials") ∧
    handleSchedulePost sampleHost refusingServer samplePostForm returningPage
      = (returningPage.fetch
          { method := "POST", path := "/api/posts",
            authorization := some (bearer sampleHost returningPage),
            body := .post (some "Launch day") ["twitter"] "2024-05-01T09:00" none }).alert
          (.str "Failed to schedule post") ∧
    LoggedInWith sampleHost returningPage (.str "tok-1") (.object 1)
      (handleLogin sampleHost looseServer ⟨some "ann", some "pw"⟩ returningPage) :=
  ⟨(success_truthiness_decides_path sampleHost refusingServer returningPage).1.1 _ 401
      ⟨.bool false, none, .str "Invalid credentials"⟩ rfl rfl,
    (success_truthiness_decides_path sampleHost refusingServer returningPage).1.2.2.2.1
      samplePostForm "2024-05-01T09:00" 400 ⟨.bool false, none, .undefined⟩ (by decide) rfl
      rfl rfl,
    ((success_truthiness_decides_path sampleHost looseServer returningPage).2.1
      ⟨some "ann", some "pw"⟩ 500 ⟨.num 1, some ⟨.str "tok-1", .object 1⟩, .undefined⟩
      ⟨.str "tok-1", .object 1⟩ rfl rfl rfl).1⟩

/-- C6 as stated fails: the renderers escape nothing. A post whose content is `<script>` and
whose platform is `<b>&`, an account named `<script>`, a recommendation whose reason is
`<script>` and a breakdown entry for the platform `x<script>` all put that text into the
markup of their container as it is. -/
theorem script_rendered_raw :
    Occurs (utf16 "<script>")
      ((displayUpcomingPosts sampleHost [scriptPost] freshPage).content "upcoming-posts") ∧
    Occurs (utf16 "<b>&")
      ((displayUpcomingPosts sampleHost [scriptPost] freshPage).content "upcoming-posts") ∧
    Occurs (utf16 "<script>")
      ((displayAccounts sampleHost [scriptAccount] freshPage).content "connected-accounts") ∧
    Occurs (utf16 "<script>") ((displayBestTimes [scriptTime] freshPage).content "best-times") ∧
    Occurs (utf16 "<script>")
      ((displayPlatformBreakdown sampleHost (some [(utf16 "x<script>", ⟨3, 40⟩)])
        freshPage).content "platform-breakdown") := by
  refine ⟨?_, ?_, ?_, ?_, ?_⟩
  · rw [displayUpcomingPosts, content_setHtml]
    exact occurs_upcomingPostsHtml sampleHost [scriptPost] scriptPost (by decide)
      (occurs_content_postItem sampleHost scriptPost)
  · rw [displayUpcomingPosts, content_setHtml]
    exact occurs_upcomingPostsHtml sampleHost [scriptPost] scriptPost (by decide)
      (occurs_platform_postItem sampleHost scriptPost (utf16 "<b>&") (by decide))
  · rw [displayAccounts, content_setHtml]
    exact occurs_accountsHtml sampleHost [scriptAccount] scriptAccount (by decide)
      (occurs_name_accountItem sampleHost scriptAccount)
  · rw [displayBestTimes, content_setHtml]
    exact occurs_bestTimesHtml [scriptTime] scriptTime (by decide)
      (occurs_reason_bestTimeItem scriptTime)
  · rw [displayPlatformBreakdown, content_setHtml]
    exact occurs_platformBreakdownHtml sampleHost [(utf16 "x<script>", ⟨3, 40⟩)] _
      (List.mem_singleton.mpr rfl)
      (occurs_platform_breakdownItem sampleHost (utf16 "x<script>", ⟨3, 40⟩))

/-- C6, amended. The markup produced by the four renderers contains the text fields as they are,
unescaped, whatever characters they hold. For each of the first five posts given to
`displayUpcomingPosts`: the first 50 UTF-16 code units of its content (the whole content when
it has at most 50) and each of its platform names. For each account given to
`displayAccounts`: its account name and its platform name after the first code unit. For each
recommendation given to `displayBestTimes`: its reason and its day. For each entry given to
`displayPlatformBreakdown`: its platform name after the first code unit. -/
theorem renderers_insert_text_raw (h : Host) (st : State) :
    (∀ (posts : List Post) (p : Post), p ∈ posts.take 5 →
      Occurs (p.content.take 50) ((displayUpcomingPosts h posts st).content "upcoming-posts") ∧
      (p.content.length ≤ 50 →
        Occurs p.content ((displayUpcomingPosts h posts st).content "upcoming-posts")) ∧
      ∀ pl ∈ p.platforms,
        Occurs pl ((displayUpcomingPosts h posts st).content "upcoming-posts")) ∧
    (∀ (accounts : List Account) (a : Account), a ∈ accounts →
      Occurs a.account_name ((displayAccounts h accounts st).content "connected-accounts") ∧
      Occurs (a.platform.drop 1)
        ((displayAccounts h accounts st).content "connected-accounts")) ∧
    (∀ (times : List BestTime) (t : BestTime), t ∈ times →
      Occurs t.reason ((displayBestTimes times st).content "best-times") ∧
      Occurs t.day ((displayBestTimes times st).content "best-times")) ∧
    (∀ (entries : List (JsString × PlatformStats)) (e : JsString × PlatformStats),
      e ∈ entries →
      Occurs (e.1.drop 1)
        ((displayPlatformBreakdown h (some entries) st).content "platform-breakdown")) := by
  refine ⟨?_, ?_, ?_, ?_⟩
  · intro posts p hp
    rw [displayUpcomingPosts, content_setHtml]
    refine ⟨occurs_upcomingPostsHtml h posts p hp (occurs_content_postItem h p), ?_, ?_⟩
    · intro hlen
      have hc := occurs_content_postItem h p
      rw [List.take_of_length_le hlen] at hc
      exact occurs_upcomingPostsHtml h posts p hp hc
    · intro pl hpl
      exact occurs_upcomingPostsHtml h posts p hp (occurs_platform_postItem h p pl hpl)
  · intro accounts a ha
    rw [displayAccounts, content_setHtml]
    exact ⟨occurs_accountsHtml h accounts a ha (occurs_name_accountItem h a),
      occurs_accountsHtml h accounts a ha (occurs_platform_accountItem h a)⟩
  · intro times t ht
    rw [displayBestTimes, content_setHtml]
    exact ⟨occurs_bestTimesHtml times t ht (occurs_reason_bestTimeItem t),
      occurs_bestTimesHtml times t ht (occurs_day_bestTimeItem t)⟩
  · intro entries e he
    rw [displayPlatformBreakdown, content_setHtml]
    exact occurs_platformBreakdownHtml h entries e he (occurs_platform_breakdownItem h e)

/-- C6 amended, at a post whose content is 25 emoji followed by `<script>`, 58 code units: the
first 50 code units, which are the 25 emoji, stand in the markup; the whole markup is the
template around the emoji and the ellipsis, and the `<script>` past the cut is not part of it.
An emoji is a surrogate pair. -/
theorem renderers_insert_text_raw_witness :
    Occurs (emojiPost.content.take 50)
      ((displayUpcomingPosts sampleHost [emojiPost] freshPage).content "upcoming-posts") ∧
    emojiPost.content.length = 58 ∧
    emojiPost.content.take 50 = (List.replicate 25 [0xD83D, 0xDE00]).flatten ∧
    (displayUpcomingPosts sampleHost [emojiPost] freshPage).content "upcoming-posts"
      = utf16 "\n        <div class=\"post-item\">\n            <h4>"
        ++ (List.replicate 25 [0xD83D, 0xDE00]).flatten ++ utf16 "..."
        ++ utf16 "</h4>\n            <p>Scheduled: " ++ utf16 "2024-05-01T09:00:00Z"
        ++ utf16 "</p>\n            <div class=\"post-platforms\">\n                "
        ++ utf16 "\n            </div>\n        </div>\n    " ∧
    utf16 (String.mk [Char.ofNat 0x1F600]) = [0xD83D, 0xDE00] := by
  have htake : emojiPost.content.take 50 = (List.replicate 25 [0xD83D, 0xDE00]).flatten := by
    decide
  have hlong : emojiPost.content.length > 50 := by decide
  refine ⟨((renderers_insert_text_raw sampleHost freshPage).1 [emojiPost] emojiPost
    (by decide)).1, by decide, htake, ?_, by decide⟩
  rw [displayUpcomingPosts, content_setHtml]
  simp only [upcomingPostsHtml, upcomingPostItems, List.length_singleton, one_ne_zero, if_false,
    List.take_succ_cons, List.take_nil, List.map_cons, List.map_nil, joinAll, postItem, htake,
    hlong, if_true, List.append_nil]
  simp only [emojiPost, sampleHost, List.map_nil, joinAll, List.append_nil]

end App
